import Mathlib

/-!
Verification of the Pulp client layer (`ubipop/_pulp_client.py`).

The development shallowly embeds the client: pure helpers become Lean
functions, HTTP traffic is made explicit by passing the server as a
function from the request payload to the response, and the task-polling
loop becomes a fuel-indexed recursion (fuel models the absence of any
built-in timeout: running out of fuel corresponds to the Python loop
still spinning).  JSON values are modelled by a small inductive type.
Machine-level details that the claims do not touch (TLS handshakes, the
`split_filename` helper, which the spec excludes as an external
collaborator) are not modelled.
-/

namespace Ubipop

/-- JSON values as the client consumes them: `null`, strings, integral
numbers (the only numbers appearing in the modelled payloads), arrays
and objects with text keys. -/
inductive Json where
  | null : Json
  | str : String → Json
  | num : Int → Json
  | arr : List Json → Json
  | obj : List (String × Json) → Json

/-- Dictionary access `j[k]` on a JSON object, `none` when the key is
absent or the value is not an object (Python would raise KeyError or
TypeError there). -/
def Json.get? : Json → String → Option Json
  | .obj kvs, k => kvs.lookup k
  | _, _ => none

/-- A JSON value expected to be a string. -/
def Json.asStr : Json → Option String
  | .str s => some s
  | _ => none

/-- A JSON value expected to be an (integral) number. -/
def Json.asInt : Json → Option Int
  | .num n => some n
  | _ => none

/-- The failure modes of the client: an HTTP error status raised by
`raise_for_status`, a response body that does not have the shape the
parsing code dereferences (Python KeyError/TypeError), the
`UnsupportedTypeId` exception of `_get_query_list` (the spec calls it
`UnsupportedUnitType`), and the AttributeError that duck-typed query
builders raise when handed a unit of the wrong kind. -/
inductive PulpError where
  | httpError (status : Nat)
  | malformedBody
  | unsupportedTypeId
  | attributeError
deriving DecidableEq

/-- A repository, referenced by its identifier only. -/
structure Repo where
  id : String
deriving DecidableEq

/-- The `Package` unit.  The version/release/epoch fields derived by the
external `split_filename` helper (excluded collaborator, spec section 1)
are not modelled; no claim touches them. -/
structure Package where
  name : String
  filename : String
  sourcerpm : Option String
  is_modular : Bool
  associate_source_repo_id : String
deriving DecidableEq

/-- The `Module` unit with its NSVCA fields, artifact list and profile
mapping. -/
structure Module where
  name : String
  stream : String
  version : Int
  context : String
  arch : String
  packages : List String
  profiles : List (String × List String)
  associate_source_repo_id : String
deriving DecidableEq

/-- The `ModuleDefaults` unit.  `profiles` models the Python dict
(stream-version key to list of profile names); a dict never has
duplicate keys, which theorems state as `Nodup` of the key list. -/
structure ModuleDefaults where
  name : String
  stream : String
  profiles : List (String × List String)
  associate_source_repo_id : String
deriving DecidableEq

/-- Lexicographic code-point comparison of character sequences: the
order Python uses to compare strings (and hence the order of
`sorted` on the profile keys and names).  Defined structurally so it is
kernel-computable. -/
def charListLe : List Char → List Char → Bool
  | [], _ => true
  | _ :: _, [] => false
  | a :: as, b :: bs =>
    if a.toNat < b.toNat then true
    else if a.toNat = b.toNat then charListLe as bs
    else false

/-- Python string comparison `a <= b` (code-point lexicographic). -/
def pyStrLe (a b : String) : Bool := charListLe a.data b.data

/-- Python string comparison as a relation, for sorting. -/
def PyLe (a b : String) : Prop := pyStrLe a b = true

instance : DecidableRel PyLe :=
  fun a b => inferInstanceAs (Decidable (pyStrLe a b = true))

/-- `ModuleDefaults.name_profiles`: the name followed by one bracketed
segment per profile key in sorted key order, each segment joining that
key's profile names in sorted order (`sorted` is insertion sort under
the Python string order, and the dict index `self.profiles[key]` is the
association-list lookup). -/
def ModuleDefaults.name_profiles (md : ModuleDefaults) : String :=
  (List.insertionSort PyLe (md.profiles.map Prod.fst)).foldl
    (fun result key =>
      result ++
        (":[" ++ key ++ ":" ++
          String.intercalate ","
            (List.insertionSort PyLe ((md.profiles.lookup key).getD [])) ++ "]"))
    md.name

/-- Decimal value of a digit sequence. -/
def pyDigitsVal (cs : List Char) : Nat :=
  cs.foldl (fun n c => 10 * n + (c.toNat - 48)) 0

/-- Python `int()` on the plain decimal forms relevant here: optional
sign followed by digits (whitespace/underscore tolerance not
modelled); `none` models the ValueError on anything else. -/
def pyInt? (s : String) : Option Int :=
  match s.data with
  | '-' :: rest =>
    if rest ≠ [] ∧ rest.all Char.isDigit then some (-(pyDigitsVal rest : Int)) else none
  | '+' :: rest =>
    if rest ≠ [] ∧ rest.all Char.isDigit then some ((pyDigitsVal rest : Int)) else none
  | cs =>
    if cs ≠ [] ∧ cs.all Char.isDigit then some ((pyDigitsVal cs : Int)) else none

/-- Python `float()` on an unsigned plain decimal: digits with an
optional fractional part (no exponents/specials). -/
def pyFloatUnsigned? (cs : List Char) : Option ℚ :=
  match cs.splitOn '.' with
  | [w] =>
    if w ≠ [] ∧ w.all Char.isDigit then some ((pyDigitsVal w : ℚ)) else none
  | [w, f] =>
    if (w ≠ [] ∨ f ≠ []) ∧ w.all Char.isDigit ∧ f.all Char.isDigit then
      some ((pyDigitsVal w : ℚ) + (pyDigitsVal f : ℚ) / ((10 : ℚ) ^ f.length))
    else none
  | _ => none

/-- Python `float()` including an optional leading sign. -/
def pyFloat? (s : String) : Option ℚ :=
  match s.data with
  | '-' :: rest => (pyFloatUnsigned? rest).map (fun q => -q)
  | '+' :: rest => pyFloatUnsigned? rest
  | cs => pyFloatUnsigned? cs

/-- `HTTP_TOTAL_RETRIES = int(os.environ.get("UBIPOP_HTTP_TOTAL_RETRIES", 10))`.
The environment is a map from variable names to optional strings; `none`
as result models the ValueError `int()` raises on an unparsable value. -/
def HTTP_TOTAL_RETRIES (env : String → Option String) : Option Int :=
  match env "UBIPOP_HTTP_TOTAL_RETRIES" with
  | none => some 10
  | some s => pyInt? s

/-- `HTTP_RETRY_BACKOFF = float(os.environ.get("UBIPOP_HTTP_RETRY_BACKOFF", 1))`. -/
def HTTP_RETRY_BACKOFF (env : String → Option String) : Option ℚ :=
  match env "UBIPOP_HTTP_RETRY_BACKOFF" with
  | none => some 1
  | some s => pyFloat? s

/-- `HTTP_TIMEOUT = int(os.environ.get("UBIPOP_HTTP_TIMEOUT", 120))`. -/
def HTTP_TIMEOUT (env : String → Option String) : Option Int :=
  match env "UBIPOP_HTTP_TIMEOUT" with
  | none => some 120
  | some s => pyInt? s

/-- The retry policy `PulpRetryAdapter.__init__` installs on its
`Retry` object. -/
structure RetryConfig where
  total : Int
  status_forcelist : List Nat
  method_whitelist : List String
  backoff_factor : ℚ
deriving DecidableEq

/-- `PulpRetryAdapter.__init__`: the `Retry` configuration built from
the `total_retries`/`backoff_factor` keyword arguments (which default to
the module-level environment-derived constants). -/
def pulpRetryAdapter (total_retries : Int) (backoff_factor : ℚ) : RetryConfig :=
  { total := total_retries,
    status_forcelist := [500, 502, 503, 504],
    method_whitelist := ["HEAD", "TRACE", "GET", "POST", "PUT", "OPTIONS", "DELETE"],
    backoff_factor := backoff_factor }

/-- `PulpRetryAdapter()` with no keyword arguments, as `_make_session`
constructs it: both knobs come from the environment-derived constants;
`none` when either environment value fails to parse. -/
def default_adapter (env : String → Option String) : Option RetryConfig := do
  let t ← HTTP_TOTAL_RETRIES env
  let b ← HTTP_RETRY_BACKOFF env
  pure (pulpRetryAdapter t b)

/-- The `Pulp` client construction data: hostname, the auth tuple
(modelled as a list, since its length is inspected), and the `insecure`
flag. -/
structure PulpClient where
  hostname : String
  auth : List String
  insecure : Bool

/-- The authentication-relevant state of a `requests.Session`: the
client certificate (`session.cert`) and the username/password pair
(`session.auth`). -/
structure Session where
  cert : Option String
  auth : Option (List String)
deriving DecidableEq

/-- `Pulp._make_session`: a one-element auth tuple is attached as the
client certificate, any other tuple is attached whole as credentials. -/
def make_session (client : PulpClient) : Session :=
  if client.auth.length = 1 then { cert := client.auth.head?, auth := none }
  else { cert := none, auth := some client.auth }

/-- The lazy per-worker session creation at the top of `do_request`:
`if not hasattr(self.local, "session"): self._make_session()`.  The
worker-local slot is the `Option Session` argument. -/
def ensure_session (client : PulpClient) (local_session : Option Session) : Session :=
  match local_session with
  | some s => s
  | none => make_session client

/-- `urllib` `urljoin` restricted to the shapes the client uses: a base
ending in a slash (or a bare scheme-plus-host) joined with a relative or
root path, where the join is string concatenation. -/
def urljoin (base rel : String) : String := base ++ rel

/-- `self.base_url = urljoin(self.scheme + hostname, self.PULP_API)`. -/
def pulp_base_url (hostname : String) : String :=
  urljoin ("https://" ++ hostname) "/pulp/api/v2/"

/-- HTTP verbs the session can be asked to issue. -/
inductive ReqMethod where
  | post
  | get
deriving DecidableEq

/-- An HTTP request as the session would send it: method, joined URL,
optional JSON body, TLS-verification flag and timeout. -/
structure HttpRequest where
  method : ReqMethod
  url : String
  body : Option Json
  verify : Bool
  timeout : Int

/-- `Pulp.do_request`: `"post"` sends the JSON body, `"get"` sends no
body, any other request type falls through to `ret = None` — no request
is issued and `none` is returned.  `timeout` stands for the module-level
`HTTP_TIMEOUT` constant. -/
def do_request (client : PulpClient) (timeout : Int) (req_type url : String)
    (data : Option Json) : Option HttpRequest :=
  let req_url := urljoin (pulp_base_url client.hostname) url
  if req_type = "post" then
    some { method := .post, url := req_url, body := data,
           verify := !client.insecure, timeout := timeout }
  else if req_type = "get" then
    some { method := .get, url := req_url, body := none,
           verify := !client.insecure, timeout := timeout }
  else none

/-- An HTTP response: status code and JSON body (`.json()` is modelled
as already-decoded JSON). -/
structure HttpResponse where
  status : Nat
  body : Json

/-- `requests` `Response.raise_for_status`: raises exactly on 4xx/5xx
status codes. -/
def raise_for_status (r : HttpResponse) : Except PulpError Unit :=
  if 400 ≤ r.status ∧ r.status < 600 then .error (.httpError r.status) else .ok ()

/-- The unit filter `search_modules`/`search_module_defaults` add when
both a name and a stream are supplied. -/
structure UnitFilter where
  name : String
  stream : String
deriving DecidableEq

/-- The `criteria` document of a search payload: the `type_ids` list and
an optional `filters.unit` object (absent when no filter was added). -/
structure SearchCriteria where
  type_ids : List String
  filters : Option UnitFilter
deriving DecidableEq

/-- Python truthiness of an optional string argument, as tested by
`if name and stream:` — `None` and the empty string are falsy. -/
def truthy : Option String → Bool
  | none => false
  | some s => !(s == "")

/-- The criteria `search_modules` builds: `type_ids ["modulemd"]`, plus
a `filters.unit` object exactly when both `name` and `stream` are
truthy. -/
def search_modules_criteria (name stream : Option String) : SearchCriteria :=
  if truthy name && truthy stream then
    { type_ids := ["modulemd"],
      filters := some { name := name.getD "", stream := stream.getD "" } }
  else { type_ids := ["modulemd"], filters := none }

/-- The criteria `search_module_defaults` builds, same rule with
`type_ids ["modulemd_defaults"]`. -/
def search_module_defaults_criteria (name stream : Option String) : SearchCriteria :=
  if truthy name && truthy stream then
    { type_ids := ["modulemd_defaults"],
      filters := some { name := name.getD "", stream := stream.getD "" } }
  else { type_ids := ["modulemd_defaults"], filters := none }

/-- A JSON value expected to be an array of strings (the `artifacts`
list of a module's metadata). -/
def jsonStrList? : Json → Option (List String)
  | .arr xs => xs.mapM Json.asStr
  | _ => none

/-- A JSON value expected to be a profiles object: keys mapped to
arrays of strings. -/
def jsonProfiles? : Json → Option (List (String × List String))
  | .obj kvs => kvs.mapM (fun kv => (jsonStrList? kv.2).map (fun l => (kv.1, l)))
  | _ => none

/-- One item of a module search response: `item["metadata"]` is
dereferenced and a `Module` is built from its fields; `none` models the
KeyError on a missing key (the fields are additionally required to have
the types the endpoint documents). -/
def parse_module_item (repo_id : String) (item : Json) : Option Module := do
  let md ← item.get? "metadata"
  let name ← (← md.get? "name").asStr
  let stream ← (← md.get? "stream").asStr
  let version ← (← md.get? "version").asInt
  let context ← (← md.get? "context").asStr
  let arch ← (← md.get? "arch").asStr
  let artifacts ← jsonStrList? (← md.get? "artifacts")
  let profiles ← jsonProfiles? (← md.get? "profiles")
  pure { name := name, stream := stream, version := version, context := context,
         arch := arch, packages := artifacts, profiles := profiles,
         associate_source_repo_id := repo_id }

/-- One item of a module-defaults search response. -/
def parse_module_defaults_item (repo_id : String) (item : Json) :
    Option ModuleDefaults := do
  let md ← item.get? "metadata"
  let name ← (← md.get? "name").asStr
  let stream ← (← md.get? "stream").asStr
  let profiles ← jsonProfiles? (← md.get? "profiles")
  pure { name := name, stream := stream, profiles := profiles,
         associate_source_repo_id := repo_id }

/-- `Pulp.search_modules`.  The remote service is the function `server`
from the posted criteria to the HTTP response.  The result pairs the
outcome (after `raise_for_status` and parsing) with the criteria that
were posted. -/
def search_modules (server : SearchCriteria → HttpResponse) (repo : Repo)
    (name stream : Option String) : Except PulpError (List Module) × SearchCriteria :=
  let criteria := search_modules_criteria name stream
  let ret := server criteria
  let result : Except PulpError (List Module) :=
    match raise_for_status ret with
    | .error e => .error e
    | .ok _ =>
      match ret.body with
      | .arr items =>
        match items.mapM (parse_module_item repo.id) with
        | some modules => .ok modules
        | none => .error .malformedBody
      | _ => .error .malformedBody
  (result, criteria)

/-- `Pulp.search_module_defaults`, same shape as `search_modules`. -/
def search_module_defaults (server : SearchCriteria → HttpResponse) (repo : Repo)
    (name stream : Option String) :
    Except PulpError (List ModuleDefaults) × SearchCriteria :=
  let criteria := search_module_defaults_criteria name stream
  let ret := server criteria
  let result : Except PulpError (List ModuleDefaults) :=
    match raise_for_status ret with
    | .error e => .error e
    | .ok _ =>
      match ret.body with
      | .arr items =>
        match items.mapM (parse_module_defaults_item repo.id) with
        | some mds => .ok mds
        | none => .error .malformedBody
      | _ => .error .malformedBody
  (result, criteria)

/-- A value appearing in a unit query: the string fields, or the
integral `version` of a module. -/
inductive QueryValue where
  | str : String → QueryValue
  | num : Int → QueryValue
deriving DecidableEq

/-- One entry of the query list: either a conjunction
`\x7b"$and": [...]\x7d` of exact-match fields, or a single exact-match
field (the package case). -/
inductive QueryClause where
  | and : List (String × QueryValue) → QueryClause
  | field : String → QueryValue → QueryClause
deriving DecidableEq

/-- A unit handed to the query builders.  Python passes plain lists and
relies on duck typing; the dispatch that reads a module attribute from a
non-module raises AttributeError, modelled by the error branch of each
builder. -/
inductive PulpUnit where
  | mod : Module → PulpUnit
  | mdd : ModuleDefaults → PulpUnit
  | pkg : Package → PulpUnit
deriving DecidableEq

/-- `Pulp._modules_query`: one five-field `$and` conjunction per module,
fields in the order name, context, version, stream, arch. -/
def modules_query (modules : List PulpUnit) : Except PulpError (List QueryClause) :=
  modules.mapM (fun u =>
    match u with
    | .mod m => .ok (.and [("name", .str m.name), ("context", .str m.context),
        ("version", .num m.version), ("stream", .str m.stream), ("arch", .str m.arch)])
    | _ => .error .attributeError)

/-- `Pulp._module_defaults_query`: a two-field `$and` conjunction per
unit. -/
def module_defaults_query (module_defaults : List PulpUnit) :
    Except PulpError (List QueryClause) :=
  module_defaults.mapM (fun u =>
    match u with
    | .mdd d => .ok (.and [("name", .str d.name), ("stream", .str d.stream)])
    | _ => .error .attributeError)

/-- `Pulp._rpms_query`: a single filename equality per package. -/
def rpms_query (rpms : List PulpUnit) : Except PulpError (List QueryClause) :=
  rpms.mapM (fun u =>
    match u with
    | .pkg p => .ok (.field "filename" (.str p.filename))
    | _ => .error .attributeError)

/-- `Pulp._get_query_list`: membership tests in if/elif priority order
modulemd, then modulemd_defaults, then rpm/srpm; only a type set
containing none of the four raises `UnsupportedTypeId`. -/
def get_query_list (type_ids : List String) (units : List PulpUnit) :
    Except PulpError (List QueryClause) :=
  if "modulemd" ∈ type_ids then modules_query units
  else if "modulemd_defaults" ∈ type_ids then module_defaults_query units
  else if "rpm" ∈ type_ids ∨ "srpm" ∈ type_ids then rpms_query units
  else .error .unsupportedTypeId

/-- The `criteria` object of an associate/unassociate payload: the
`type_ids` list and the query-list disjunction stored under
`filters.unit.$or`. -/
structure UnitCriteria where
  type_ids : List String
  filters_unit_or : List QueryClause
deriving DecidableEq

/-- The payload `Pulp.associate_units` posts. -/
structure AssociateData where
  url : String
  source_repo_id : String
  criteria : UnitCriteria
deriving DecidableEq

/-- The payload `Pulp.unassociate_units` posts. -/
structure UnassociateData where
  url : String
  criteria : UnitCriteria
deriving DecidableEq

/-- The payload construction of `Pulp.associate_units` (the part before
the request is issued). -/
def associate_units_data (src_repo dest_repo : Repo) (units : List PulpUnit)
    (type_ids : List String) : Except PulpError AssociateData :=
  (get_query_list type_ids units).map (fun ql =>
    { url := "repositories/" ++ dest_repo.id ++ "/actions/associate/",
      source_repo_id := src_repo.id,
      criteria := { type_ids := type_ids, filters_unit_or := ql } })

/-- The payload construction of `Pulp.unassociate_units`. -/
def unassociate_units_data (repo : Repo) (units : List PulpUnit)
    (type_ids : List String) : Except PulpError UnassociateData :=
  (get_query_list type_ids units).map (fun ql =>
    { url := "repositories/" ++ repo.id ++ "/actions/unassociate/",
      criteria := { type_ids := type_ids, filters_unit_or := ql } })

/-- `[task["task_id"] for task in ret["spawned_tasks"]]`: dereference
the `spawned_tasks` key and collect each task's `task_id` value; `none`
models the exception on any shape mismatch. -/
def spawned_task_ids (body : Json) : Option (List Json) := do
  let st ← body.get? "spawned_tasks"
  match st with
  | .arr tasks => tasks.mapM (fun t => t.get? "task_id")
  | _ => none

/-- The response handling of `Pulp.unassociate_units`: the body is
parsed with NO status check — `ret = self.do_request(...).json()`. -/
def unassociate_units_handle (ret : HttpResponse) : Except PulpError (List Json) :=
  match spawned_task_ids ret.body with
  | some ids => .ok ids
  | none => .error .malformedBody

/-- The response handling of `Pulp.associate_units`:
`ret.raise_for_status()` first, then the body is parsed. -/
def associate_units_handle (ret : HttpResponse) : Except PulpError (List Json) :=
  match raise_for_status ret with
  | .error e => .error e
  | .ok _ =>
    match spawned_task_ids ret.body with
    | some ids => .ok ids
    | none => .error .malformedBody

/-- A task state is terminal when it is finished, error or canceled. -/
def isTerminal (state : String) : Bool :=
  state == "finished" || state == "error" || state == "canceled"

/-- The URL `search_tasks` polls for one task id:
the format string "tasks/" followed by the id and "/". -/
def task_url (task_id : String) : String := "tasks/" ++ task_id ++ "/"

/-- `Pulp.search_tasks`: one GET per task id (no batching).  `poll`
gives the state the service reports for an id at this moment; the
endpoint (spec section 6) answers `tasks/X/` with a status whose
`task_id` is X, so a status is modelled as the pair (id, state).  The
second component records the request URLs issued, one per id. -/
def search_tasks (poll : String → String) (task_ids : List String) :
    List (String × String) × List String :=
  (task_ids.map (fun task_id => (task_id, poll task_id)),
   task_ids.map task_url)

/-- A Python dict assignment `results[k] = v` on a dict modelled as a
function to optional values. -/
def dict_insert (m : String → Option String) (k v : String) : String → Option String :=
  fun x => if x = k then some v else m x

/-- The `while _tasks:` loop of `Pulp.wait_for_tasks`.  `poll r id` is
the state the service reports for `id` in polling round `r`; `fuel`
bounds the number of rounds the model can run (the Python loop has no
such bound — exhausted fuel, result `none`, means the loop is still
spinning).  The loop returns the results dict; the `List ℚ` accumulates
one entry of `delay` per `time.sleep(delay)` executed, and the
`List (List String)` accumulates the request URLs of each round. -/
def waitLoop (poll : Nat → String → String) (delay : ℚ) :
    Nat → Nat → List String → (String → Option String) → List ℚ → List (List String) →
    Option (String → Option String) × List ℚ × List (List String)
  | 0, _, pending, results, sleeps, reqs =>
    (if pending.isEmpty then some results else none, sleeps, reqs)
  | fuel + 1, round, pending, results, sleeps, reqs =>
    if pending.isEmpty then (some results, sleeps, reqs)
    else
      waitLoop poll delay fuel (round + 1)
        (pending.filter (fun task_id => !(isTerminal (poll round task_id))))
        ((search_tasks (poll round) pending).1.foldl
          (fun acc st => dict_insert acc st.1 st.2) results)
        (if (pending.filter (fun task_id => !(isTerminal (poll round task_id)))).isEmpty
          then sleeps else sleeps ++ [delay])
        (reqs ++ [(search_tasks (poll round) pending).2])

/-- `Pulp.wait_for_tasks`: the pending set starts as
`set(task_id_list)` (duplicates removed; a Python set's iteration order
is arbitrary, and nothing below depends on the order chosen here), the
results dict starts empty. -/
def wait_for_tasks (poll : Nat → String → String) (fuel : Nat)
    (task_id_list : List String) (delay : ℚ) :
    Option (String → Option String) × List ℚ × List (List String) :=
  waitLoop poll delay fuel 0 task_id_list.dedup (fun _ => none) [] []

/-- The ids still pending before round `j`: those of the initial set for
which no earlier round reported a terminal state. -/
def pendingAt (poll : Nat → String → String) (pending : List String) : Nat → List String
  | 0 => pending
  | j + 1 =>
    (pendingAt poll pending j).filter (fun task_id => !(isTerminal (poll j task_id)))

/-- A concrete server for exercising the search operations: it answers
every criteria document with status 200 and a single well-formed module
item. -/
def sample_module_server : SearchCriteria → HttpResponse := fun _ =>
  ⟨200, .arr [.obj [("metadata", .obj
    [("name", .str "mod1"), ("stream", .str "s1"), ("version", .num 1),
     ("context", .str "c1"), ("arch", .str "x86_64"),
     ("artifacts", .arr []), ("profiles", .obj [])])]]⟩

/-- A concrete polling schedule for exercising `wait_for_tasks`: t2 is
finished immediately, every other task is running in round 0 and
finished from round 1 on. -/
def pollW : Nat → String → String := fun r task_id =>
  if task_id = "t2" then "finished" else if r = 0 then "running" else "finished"

lemma charListLe_total : ∀ as bs, charListLe as bs = true ∨ charListLe bs as = true := by
  intro as
  induction as with
  | nil => intro bs; exact Or.inl rfl
  | cons a as ih =>
    intro bs
    cases bs with
    | nil => exact Or.inr rfl
    | cons b bs =>
      rcases Nat.lt_trichotomy a.toNat b.toNat with h | h | h
      · exact Or.inl (by simp [charListLe, h])
      · have hab : ¬ a.toNat < b.toNat := by omega
        have hba : ¬ b.toNat < a.toNat := by omega
        rcases ih bs with h2 | h2
        · exact Or.inl (by simp [charListLe, hab, h, h2])
        · exact Or.inr (by simp [charListLe, hba, h.symm, h2])
      · exact Or.inr (by simp [charListLe, h])

lemma charListLe_trans : ∀ as bs cs, charListLe as bs = true → charListLe bs cs = true →
    charListLe as cs = true := by
  intro as
  induction as with
  | nil => intro bs cs _ _; rfl
  | cons a as ih =>
    intro bs cs h1 h2
    cases bs with
    | nil => simp [charListLe] at h1
    | cons b bs =>
      cases cs with
      | nil => simp [charListLe] at h2
      | cons c cs =>
        simp only [charListLe] at h1 h2 ⊢
        split_ifs at h1 h2 ⊢ <;>
          first
          | rfl
          | omega
          | exact ih bs cs h1 h2

lemma charListLe_antisymm : ∀ as bs, charListLe as bs = true → charListLe bs as = true →
    as = bs := by
  intro as
  induction as with
  | nil =>
    intro bs h1 h2
    cases bs with
    | nil => rfl
    | cons b bs => simp [charListLe] at h2
  | cons a as ih =>
    intro bs h1 h2
    cases bs with
    | nil => simp [charListLe] at h1
    | cons b bs =>
      simp only [charListLe] at h1 h2
      by_cases hab : a.toNat < b.toNat
      · by_cases hba : b.toNat < a.toNat
        · omega
        · rw [if_neg hba] at h2
          by_cases hba2 : b.toNat = a.toNat
          · omega
          · rw [if_neg hba2] at h2; simp at h2
      · rw [if_neg hab] at h1
        by_cases hab2 : a.toNat = b.toNat
        · rw [if_pos hab2] at h1
          have hba : ¬ b.toNat < a.toNat := by omega
          rw [if_neg hba, if_pos hab2.symm] at h2
          have hc : a = b := Char.ext (UInt32.toNat.inj hab2)
          rw [hc, ih bs h1 h2]
        · rw [if_neg hab2] at h1; simp at h1

instance : IsTotal String PyLe :=
  ⟨fun a b => charListLe_total a.data b.data⟩

instance : IsTrans String PyLe :=
  ⟨fun a b c h1 h2 => charListLe_trans a.data b.data c.data h1 h2⟩

instance : IsAntisymm String PyLe :=
  ⟨fun a b h1 h2 => congrArg String.mk (charListLe_antisymm a.data b.data h1 h2)⟩

lemma lookup_eq_of_perm {β : Type} :
    ∀ {l1 l2 : List (String × β)}, l1.Perm l2 → (l1.map Prod.fst).Nodup →
      ∀ k, l1.lookup k = l2.lookup k := by
  intro l1 l2 h
  induction h with
  | nil => intro _ k; rfl
  | cons p h ih =>
    intro nd k
    rw [List.map_cons] at nd
    have nd2 := (List.nodup_cons.mp nd).2
    cases hbeq : (k == p.1) with
    | true => simp [List.lookup, hbeq]
    | false => simpa [List.lookup, hbeq] using ih nd2 k
  | swap p q t =>
    intro nd k
    have hqp : q.1 ≠ p.1 := by
      rw [List.map_cons, List.map_cons] at nd
      have h1 := (List.nodup_cons.mp nd).1
      intro hc
      exact h1 (hc ▸ List.mem_cons_self _ _)
    cases hkq : (k == q.1) <;> cases hkp : (k == p.1) <;>
      simp [List.lookup, hkq, hkp]
    exact absurd ((eq_of_beq hkq).symm.trans (eq_of_beq hkp)) hqp
  | trans h1 h2 ih1 ih2 =>
    intro nd k
    exact (ih1 nd k).trans (ih2 ((h1.map Prod.fst).nodup_iff.mp nd) k)

lemma string_foldl_append_shift :
    ∀ (l : List String) (init : String),
      List.foldl (fun r s => r ++ s) init l =
        init ++ List.foldl (fun r s => r ++ s) "" l := by
  intro l
  induction l with
  | nil => intro init; exact (String.append_empty init).symm
  | cons a t ih =>
    intro init
    show List.foldl _ (init ++ a) t = _
    rw [ih (init ++ a), String.append_assoc]
    congr 1
    show _ = List.foldl _ ("" ++ a) t
    rw [String.empty_append, ih a]

lemma string_join_cons (a : String) (l : List String) :
    String.join (a :: l) = a ++ String.join l := by
  show List.foldl _ ("" ++ a) l = _
  rw [String.empty_append]
  exact string_foldl_append_shift l a

lemma foldl_append_eq_join (F : String → String) :
    ∀ (l : List String) (init : String),
      l.foldl (fun acc x => acc ++ F x) init = init ++ String.join (l.map F) := by
  intro l
  induction l with
  | nil => intro init; exact (String.append_empty init).symm
  | cons a t ih =>
    intro init
    show t.foldl _ (init ++ F a) = _
    rw [ih (init ++ F a), String.append_assoc, List.map_cons, string_join_cons]

lemma isEmpty_false_of_mem {α : Type} {l : List α} {x : α} (h : x ∈ l) :
    l.isEmpty = false := by
  cases l with
  | nil => cases h
  | cons a t => rfl

lemma foldl_dict_insert (f : String → String) :
    ∀ (pending : List String) (results : String → Option String) (x : String),
      ((pending.map (fun task_id => (task_id, f task_id))).foldl
          (fun acc st => dict_insert acc st.1 st.2) results) x =
        if x ∈ pending then some (f x) else results x := by
  intro pending
  induction pending with
  | nil => intro results x; simp
  | cons a t ih =>
    intro results x
    simp only [List.map_cons, List.foldl_cons]
    rw [ih]
    by_cases hx : x ∈ t
    · rw [if_pos hx, if_pos (List.mem_cons_of_mem a hx)]
    · rw [if_neg hx]
      by_cases hxa : x = a
      · subst hxa
        rw [if_pos (List.mem_cons_self x t)]
        simp [dict_insert]
      · rw [if_neg (by simp [hxa, hx])]
        simp [dict_insert, hxa]

lemma waitLoop_shift (poll : Nat → String → String) (delay : ℚ) :
    ∀ (fuel round : Nat) (pending : List String) (results : String → Option String)
      (sleeps : List ℚ) (reqs : List (List String)),
      waitLoop poll delay fuel (round + 1) pending results sleeps reqs =
        waitLoop (fun r task_id => poll (r + 1) task_id) delay fuel round
          pending results sleeps reqs := by
  intro fuel
  induction fuel with
  | zero => intro round pending results sleeps reqs; rfl
  | succ fuel ih =>
    intro round pending results sleeps reqs
    simp only [waitLoop]
    by_cases hp : pending.isEmpty = true
    · rw [if_pos hp, if_pos hp]
    · rw [if_neg hp, if_neg hp]
      exact ih (round + 1) _ _ _ _

lemma pendingAt_shift (poll : Nat → String → String) (pending : List String) :
    ∀ j, pendingAt poll pending (j + 1) =
      pendingAt (fun r task_id => poll (r + 1) task_id)
        (pending.filter (fun task_id => !(isTerminal (poll 0 task_id)))) j := by
  intro j
  induction j with
  | zero => rfl
  | succ j ih =>
    show (pendingAt poll pending (j + 1)).filter _ = _
    rw [ih]
    rfl

lemma mem_pendingAt (poll : Nat → String → String) (pending : List String) :
    ∀ (j : Nat) (task_id : String), task_id ∈ pendingAt poll pending j ↔
      (task_id ∈ pending ∧ ∀ r, r < j → ¬ isTerminal (poll r task_id) = true) := by
  intro j
  induction j with
  | zero => intro task_id; simp [pendingAt]
  | succ j ih =>
    intro task_id
    show task_id ∈ (pendingAt poll pending j).filter _ ↔ _
    rw [List.mem_filter, ih]
    constructor
    · rintro ⟨⟨h1, h2⟩, h3⟩
      refine ⟨h1, fun r hr => ?_⟩
      rcases Nat.lt_succ_iff_lt_or_eq.mp hr with h | h
      · exact h2 r h
      · subst h; simpa using h3
    · rintro ⟨h1, h2⟩
      exact ⟨⟨h1, fun r hr => h2 r (by omega)⟩, by simp [h2 j (Nat.lt_succ_self j)]⟩

lemma waitLoop_run_spec (delay : ℚ) :
    ∀ (fuel : Nat) (poll : Nat → String → String) (pending : List String)
      (results : String → Option String) (sleeps : List ℚ) (reqs : List (List String)),
      (∀ task_id ∈ pending, ∃ r, r < fuel ∧ isTerminal (poll r task_id) = true) →
      ∃ (res : String → Option String) (n : Nat),
        (waitLoop poll delay fuel 0 pending results sleeps reqs).1 = some res ∧
        (waitLoop poll delay fuel 0 pending results sleeps reqs).2.2 =
          reqs ++ (List.range n).map (fun j => (pendingAt poll pending j).map task_url) ∧
        (∀ x, x ∉ pending → res x = results x) ∧
        (∀ task_id ∈ pending, ∀ p, isTerminal (poll p task_id) = true →
          (∀ r, r < p → ¬ isTerminal (poll r task_id) = true) →
          res task_id = some (poll p task_id)) := by
  intro fuel
  induction fuel with
  | zero =>
    intro poll pending results sleeps reqs hterm
    have hp : pending = [] := by
      cases pending with
      | nil => rfl
      | cons a t =>
        rcases hterm a (List.mem_cons_self a t) with ⟨r, hr, _⟩
        omega
    subst hp
    exact ⟨results, 0, rfl, by simp [waitLoop], fun x _ => rfl,
      fun task_id h => absurd h (List.not_mem_nil task_id)⟩
  | succ fuel ih =>
    intro poll pending results sleeps reqs hterm
    by_cases hp : pending.isEmpty = true
    · have hpe : pending = [] := by
        cases pending with
        | nil => rfl
        | cons a t => simp at hp
      subst hpe
      refine ⟨results, 0, ?_, ?_, fun x _ => rfl,
        fun task_id h => absurd h (List.not_mem_nil task_id)⟩
      · simp only [waitLoop]; rw [if_pos hp]
      · simp only [waitLoop]; rw [if_pos hp]; simp
    · simp only [waitLoop]
      rw [if_neg hp, waitLoop_shift]
      have hterm2 : ∀ task_id ∈
          pending.filter (fun t => !(isTerminal (poll 0 t))), ∃ r, r < fuel ∧
            isTerminal ((fun r t => poll (r + 1) t) r task_id) = true := by
        intro task_id hmem
        obtain ⟨hmem0, hnt0⟩ := List.mem_filter.mp hmem
        rcases hterm task_id hmem0 with ⟨r, hr, hT⟩
        cases r with
        | zero => rw [hT] at hnt0; simp at hnt0
        | succ r => exact ⟨r, by omega, hT⟩
      obtain ⟨res, n, h1, h2, h3, h4⟩ := ih (fun r t => poll (r + 1) t)
        (pending.filter (fun t => !(isTerminal (poll 0 t)))) _ _ _ hterm2
      refine ⟨res, n + 1, h1, ?_, ?_, ?_⟩
      · rw [h2, List.append_assoc]
        congr 1
        rw [List.range_succ_eq_map, List.map_cons, List.map_map, List.singleton_append]
        congr 1
        refine List.map_congr_left (fun j _ => ?_)
        show List.map task_url (pendingAt (fun r t => poll (r + 1) t)
            (pending.filter (fun t => !(isTerminal (poll 0 t)))) j) =
          List.map task_url (pendingAt poll pending (j + 1))
        rw [pendingAt_shift]
      · intro x hx
        rw [h3 x (fun hc => hx (List.mem_filter.mp hc).1)]
        have := foldl_dict_insert (poll 0) pending results x
        rw [if_neg hx] at this
        exact this
      · intro task_id hmem p hT hmin
        by_cases h0 : isTerminal (poll 0 task_id) = true
        · have hp0 : p = 0 := by
            by_contra hne
            exact hmin 0 (by omega) h0
          subst hp0
          have hnot : task_id ∉ pending.filter (fun t => !(isTerminal (poll 0 t))) := by
            intro hc
            have := (List.mem_filter.mp hc).2
            rw [h0] at this
            simp at this
          rw [h3 task_id hnot]
          have := foldl_dict_insert (poll 0) pending results task_id
          rw [if_pos hmem] at this
          exact this
        · have hmem2 : task_id ∈ pending.filter (fun t => !(isTerminal (poll 0 t))) :=
            List.mem_filter.mpr ⟨hmem, by simp [h0]⟩
          cases p with
          | zero => exact absurd hT h0
          | succ p =>
            exact h4 task_id hmem2 p hT (fun r hr => hmin (r + 1) (by omega))

lemma waitLoop_stuck (delay : ℚ) :
    ∀ (fuel : Nat) (poll : Nat → String → String) (round : Nat) (pending : List String)
      (results : String → Option String) (sleeps : List ℚ) (reqs : List (List String))
      (id0 : String), id0 ∈ pending → (∀ r, ¬ isTerminal (poll r id0) = true) →
      (waitLoop poll delay fuel round pending results sleeps reqs).1 = none ∧
      (waitLoop poll delay fuel round pending results sleeps reqs).2.1 =
        sleeps ++ List.replicate fuel delay := by
  intro fuel
  induction fuel with
  | zero =>
    intro poll round pending results sleeps reqs id0 h0 hnt
    have hne : pending.isEmpty = false := isEmpty_false_of_mem h0
    constructor
    · show (if pending.isEmpty then some results else none) = none
      rw [hne]
      rfl
    · show sleeps = sleeps ++ List.replicate 0 delay
      simp
  | succ fuel ih =>
    intro poll round pending results sleeps reqs id0 h0 hnt
    have hne : ¬ pending.isEmpty = true := by
      rw [isEmpty_false_of_mem h0]
      simp
    have h02 : id0 ∈ pending.filter (fun t => !(isTerminal (poll round t))) :=
      List.mem_filter.mpr ⟨h0, by simp [hnt round]⟩
    have hne2 : ¬ (pending.filter
        (fun t => !(isTerminal (poll round t)))).isEmpty = true := by
      rw [isEmpty_false_of_mem h02]
      simp
    simp only [waitLoop]
    rw [if_neg hne]
    obtain ⟨ha, hb⟩ := ih poll (round + 1) _ _ _ _ id0 h02 hnt
    refine ⟨ha, ?_⟩
    rw [hb, if_neg hne2, List.append_assoc]
    rfl

lemma waitLoop_some_terminal (delay : ℚ) :
    ∀ (fuel : Nat) (poll : Nat → String → String) (round : Nat) (pending : List String)
      (results : String → Option String) (sleeps : List ℚ) (reqs : List (List String))
      (res : String → Option String),
      (waitLoop poll delay fuel round pending results sleeps reqs).1 = some res →
      ∀ task_id ∈ pending, ∃ r, r < fuel ∧ isTerminal (poll (round + r) task_id) = true := by
  intro fuel
  induction fuel with
  | zero =>
    intro poll round pending results sleeps reqs res h task_id hmem
    have hne : pending.isEmpty = false := isEmpty_false_of_mem hmem
    have : (waitLoop poll delay 0 round pending results sleeps reqs).1 = none := by
      show (if pending.isEmpty then some results else none) = none
      rw [hne]
      rfl
    rw [this] at h
    exact Option.noConfusion h
  | succ fuel ih =>
    intro poll round pending results sleeps reqs res h task_id hmem
    by_cases hterm0 : isTerminal (poll round task_id) = true
    · exact ⟨0, by omega, by simpa using hterm0⟩
    · have hne : ¬ pending.isEmpty = true := by
        rw [isEmpty_false_of_mem hmem]
        simp
      simp only [waitLoop] at h
      rw [if_neg hne] at h
      have hmem2 : task_id ∈ pending.filter (fun t => !(isTerminal (poll round t))) :=
        List.mem_filter.mpr ⟨hmem, by simp [hterm0]⟩
      rcases ih poll (round + 1) _ _ _ _ res h task_id hmem2 with ⟨r, hr, hT⟩
      refine ⟨r + 1, by omega, ?_⟩
      rw [show round + (r + 1) = round + 1 + r by omega]
      exact hT

/-- C1 counterexample: with only a name given (no stream),
`search_modules` posts an unfiltered query and returns whatever the
server answers — here a non-empty module list — refuting the claim that
the result is an empty set unless both name and stream are given. -/
theorem search_modules_name_only_nonempty :
    (search_modules sample_module_server ⟨"repo1"⟩ (some "foo") none).1 =
      .ok [⟨"mod1", "s1", 1, "c1", "x86_64", [], [], "repo1"⟩] ∧
    (search_modules sample_module_server ⟨"repo1"⟩ (some "foo") none).1 ≠ .ok [] := by
  have h : (search_modules sample_module_server ⟨"repo1"⟩ (some "foo") none).1 =
      .ok [⟨"mod1", "s1", 1, "c1", "x86_64", [], [], "repo1"⟩] := rfl
  refine ⟨h, ?_⟩
  rw [h]
  intro hh
  exact List.noConfusion (Except.ok.inj hh)

/-- C1 amended: with only a name, only a stream, or neither (Python
truthiness: `None` or the empty string), `search_modules` and
`search_module_defaults` issue the UNfiltered query — criteria with the
type_ids only, no unit filter — and return whatever the server answers
for that unfiltered query (the same result as passing neither); the
filtered query, with the name/stream unit filter, is issued exactly when
both are truthy. -/
theorem search_filter_requires_both (server serverD : SearchCriteria → HttpResponse)
    (repo : Repo) (name stream : Option String) :
    (truthy name = false ∨ truthy stream = false →
      (search_modules server repo name stream).2 = ⟨["modulemd"], none⟩ ∧
      (search_modules server repo name stream).1 =
        (search_modules server repo none none).1 ∧
      (search_module_defaults serverD repo name stream).2 =
        ⟨["modulemd_defaults"], none⟩ ∧
      (search_module_defaults serverD repo name stream).1 =
        (search_module_defaults serverD repo none none).1) ∧
    (truthy name = true → truthy stream = true →
      (search_modules server repo name stream).2 =
        ⟨["modulemd"], some ⟨name.getD "", stream.getD ""⟩⟩ ∧
      (search_module_defaults serverD repo name stream).2 =
        ⟨["modulemd_defaults"], some ⟨name.getD "", stream.getD ""⟩⟩) := by
  refine ⟨fun h => ?_, fun h1 h2 => ?_⟩
  · have hc : (truthy name && truthy stream) = false := by
      rcases h with h | h <;> simp [h]
    have hm : search_modules_criteria name stream = search_modules_criteria none none := by
      simp only [search_modules_criteria, hc]
      rfl
    have hd : search_module_defaults_criteria name stream =
        search_module_defaults_criteria none none := by
      simp only [search_module_defaults_criteria, hc]
      rfl
    refine ⟨?_, ?_, ?_, ?_⟩
    · show search_modules_criteria name stream = _
      simp only [search_modules_criteria, hc]
      rfl
    · simp only [search_modules]
      rw [hm]
    · show search_module_defaults_criteria name stream = _
      simp only [search_module_defaults_criteria, hc]
      rfl
    · simp only [search_module_defaults]
      rw [hd]
  · have hc : (truthy name && truthy stream) = true := by simp [h1, h2]
    constructor
    · show search_modules_criteria name stream = _
      simp only [search_modules_criteria, hc]
      rfl
    · show search_module_defaults_criteria name stream = _
      simp only [search_module_defaults_criteria, hc]
      rfl

/-- Witness for C1 at name = "foo", stream absent. -/
theorem search_filter_requires_both_witness :
    (search_modules sample_module_server ⟨"repo1"⟩ (some "foo") none).2 =
      ⟨["modulemd"], none⟩ ∧
    (search_modules sample_module_server ⟨"repo1"⟩ (some "foo") none).1 =
      (search_modules sample_module_server ⟨"repo1"⟩ none none).1 ∧
    (search_module_defaults sample_module_server ⟨"repo1"⟩ (some "foo") none).2 =
      ⟨["modulemd_defaults"], none⟩ ∧
    (search_module_defaults sample_module_server ⟨"repo1"⟩ (some "foo") none).1 =
      (search_module_defaults sample_module_server ⟨"repo1"⟩ none none).1 :=
  (search_filter_requires_both sample_module_server sample_module_server ⟨"repo1"⟩
    (some "foo") none).1 (Or.inr rfl)

/-- C2 counterexample: the mixed type set containing both "modulemd"
and "rpm" does NOT fail — `_get_query_list` takes the modulemd branch
and returns a module query, contrary to the claim that any mixed set
raises `UnsupportedUnitType`. -/
theorem get_query_list_mixed_not_error :
    get_query_list ["modulemd", "rpm"]
        [PulpUnit.mod ⟨"m", "s", 1, "c", "x86_64", [], [], "r"⟩] =
      .ok [.and [("name", .str "m"), ("context", .str "c"), ("version", .num 1),
                 ("stream", .str "s"), ("arch", .str "x86_64")]] ∧
    get_query_list ["modulemd", "rpm"]
        [PulpUnit.mod ⟨"m", "s", 1, "c", "x86_64", [], [], "r"⟩] ≠
      .error .unsupportedTypeId := by
  have h : get_query_list ["modulemd", "rpm"]
      [PulpUnit.mod ⟨"m", "s", 1, "c", "x86_64", [], [], "r"⟩] =
      .ok [.and [("name", .str "m"), ("context", .str "c"), ("version", .num 1),
                 ("stream", .str "s"), ("arch", .str "x86_64")]] := rfl
  exact ⟨h, by rw [h]; exact fun hh => Except.noConfusion hh⟩

/-- C2 amended: `_get_query_list` dispatches by membership in if/elif
priority order — modulemd first, then modulemd_defaults, then
rpm/srpm — and fails with `UnsupportedTypeId` exactly when the type set
contains none of the four known type ids; a mixed set takes the first
matching branch instead of failing. -/
theorem get_query_list_dispatch (type_ids : List String) (units : List PulpUnit) :
    ("modulemd" ∈ type_ids → get_query_list type_ids units = modules_query units) ∧
    ("modulemd" ∉ type_ids → "modulemd_defaults" ∈ type_ids →
      get_query_list type_ids units = module_defaults_query units) ∧
    ("modulemd" ∉ type_ids → "modulemd_defaults" ∉ type_ids →
      ("rpm" ∈ type_ids ∨ "srpm" ∈ type_ids) →
      get_query_list type_ids units = rpms_query units) ∧
    ("modulemd" ∉ type_ids → "modulemd_defaults" ∉ type_ids →
      "rpm" ∉ type_ids → "srpm" ∉ type_ids →
      get_query_list type_ids units = .error .unsupportedTypeId) := by
  refine ⟨fun h1 => ?_, fun h1 h2 => ?_, fun h1 h2 h3 => ?_, fun h1 h2 h3 h4 => ?_⟩
  · unfold get_query_list; rw [if_pos h1]
  · unfold get_query_list; rw [if_neg h1, if_pos h2]
  · unfold get_query_list; rw [if_neg h1, if_neg h2, if_pos h3]
  · unfold get_query_list
    rw [if_neg h1, if_neg h2, if_neg (by exact fun h => h.elim h3 h4)]

/-- Witness for C2: a type set with none of the known ids fails. -/
theorem get_query_list_dispatch_witness :
    get_query_list ["distribution"] [] = .error .unsupportedTypeId :=
  (get_query_list_dispatch ["distribution"] []).2.2.2
    (by decide) (by decide) (by decide) (by decide)

/-- C3: when every given task id eventually polls terminal (within
`fuel` rounds — the fuel bounds the model, the Python loop just runs),
`wait_for_tasks` returns a mapping defined exactly on the given ids
(a dict, so each id has exactly one entry), sending each id to the
terminal status first observed for it; and the request log has one
entry per polling round, holding one `tasks/ID/` request per id still
pending that round — no batching, as `pendingAt` characterises. -/
theorem wait_for_tasks_terminal_mapping (poll : Nat → String → String) (delay : ℚ)
    (ids : List String) (fuel : Nat)
    (H : ∀ task_id ∈ ids, ∃ r, r < fuel ∧ isTerminal (poll r task_id) = true) :
    ∃ (res : String → Option String) (n : Nat),
      (wait_for_tasks poll fuel ids delay).1 = some res ∧
      (∀ x, x ∉ ids → res x = none) ∧
      (∀ task_id ∈ ids, res task_id ≠ none) ∧
      (∀ task_id ∈ ids, ∀ p, isTerminal (poll p task_id) = true →
        (∀ r, r < p → ¬ isTerminal (poll r task_id) = true) →
        res task_id = some (poll p task_id)) ∧
      (wait_for_tasks poll fuel ids delay).2.2 =
        (List.range n).map (fun j => (pendingAt poll ids.dedup j).map task_url) ∧
      (∀ (j : Nat) (task_id : String), task_id ∈ pendingAt poll ids.dedup j ↔
        (task_id ∈ ids ∧ ∀ r, r < j → ¬ isTerminal (poll r task_id) = true)) := by
  have H2 : ∀ task_id ∈ ids.dedup, ∃ r, r < fuel ∧ isTerminal (poll r task_id) = true :=
    fun task_id h => H task_id (List.mem_dedup.mp h)
  obtain ⟨res, n, h1, h2, h3, h4⟩ :=
    waitLoop_run_spec delay fuel poll ids.dedup (fun _ => none) [] [] H2
  refine ⟨res, n, h1, ?_, ?_, ?_, by simpa using h2, ?_⟩
  · intro x hx
    exact h3 x (fun hc => hx (List.mem_dedup.mp hc))
  · intro task_id hid
    rcases H task_id hid with ⟨r, hr, hT⟩
    have hex : ∃ p, isTerminal (poll p task_id) = true := ⟨r, hT⟩
    rw [h4 task_id (List.mem_dedup.mpr hid) (Nat.find hex) (Nat.find_spec hex)
      (fun q hq => Nat.find_min hex hq)]
    simp
  · intro task_id hid p hT hmin
    exact h4 task_id (List.mem_dedup.mpr hid) p hT hmin
  · intro j task_id
    rw [mem_pendingAt, List.mem_dedup]

/-- Witness for C3: the two-round two-task polling example of the spec:
t2 finishes in round 1, t1 in round 2. -/
theorem wait_for_tasks_terminal_mapping_witness :
    ∃ (res : String → Option String) (n : Nat),
      (wait_for_tasks pollW 2 ["t1", "t2"] 5).1 = some res ∧
      (∀ x, x ∉ ["t1", "t2"] → res x = none) ∧
      (∀ task_id ∈ ["t1", "t2"], res task_id ≠ none) ∧
      (∀ task_id ∈ ["t1", "t2"], ∀ p, isTerminal (pollW p task_id) = true →
        (∀ r, r < p → ¬ isTerminal (pollW r task_id) = true) →
        res task_id = some (pollW p task_id)) ∧
      (wait_for_tasks pollW 2 ["t1", "t2"] 5).2.2 =
        (List.range n).map (fun j =>
          (pendingAt pollW (["t1", "t2"] : List String).dedup j).map task_url) ∧
      (∀ (j : Nat) (task_id : String),
        task_id ∈ pendingAt pollW (["t1", "t2"] : List String).dedup j ↔
        (task_id ∈ ["t1", "t2"] ∧ ∀ r, r < j → ¬ isTerminal (pollW r task_id) = true)) :=
  wait_for_tasks_terminal_mapping pollW 5 ["t1", "t2"] 2 (by
    intro task_id hid
    refine ⟨1, by omega, ?_⟩
    rcases List.mem_cons.mp hid with h | h
    · subst h; decide
    · have h2 : task_id = "t2" := by simpa using h
      subst h2; decide)

/-- C4: `wait_for_tasks` terminates only when its pending set empties.
If some given id never polls terminal, then for EVERY fuel bound the
loop is still spinning (no timeout or deadline ever ends it), and it has
slept `delay` once per completed round — the sleep before every next
round.  Conversely, whenever the loop returns, every given id polled
terminal within the executed rounds, i.e. the pending set emptied. -/
theorem wait_for_tasks_no_timeout :
    (∀ (poll : Nat → String → String) (delay : ℚ) (ids : List String) (id0 : String),
      id0 ∈ ids → (∀ r, ¬ isTerminal (poll r id0) = true) →
      ∀ fuel, (wait_for_tasks poll fuel ids delay).1 = none ∧
        (wait_for_tasks poll fuel ids delay).2.1 = List.replicate fuel delay) ∧
    (∀ (poll : Nat → String → String) (delay : ℚ) (ids : List String) (fuel : Nat)
        (res : String → Option String),
      (wait_for_tasks poll fuel ids delay).1 = some res →
      ∀ task_id ∈ ids, ∃ r, r < fuel ∧ isTerminal (poll r task_id) = true) := by
  constructor
  · intro poll delay ids id0 h0 hnt fuel
    have h02 : id0 ∈ ids.dedup := List.mem_dedup.mpr h0
    have := waitLoop_stuck delay fuel poll 0 ids.dedup (fun _ => none) [] [] id0 h02 hnt
    simpa using this
  · intro poll delay ids fuel res h task_id hid
    have := waitLoop_some_terminal delay fuel poll 0 ids.dedup (fun _ => none) [] [] res h
      task_id (List.mem_dedup.mpr hid)
    simpa using this

/-- Witness for C4: a never-terminal task blocks forever (here checked
at fuel 3, with three sleeps of the 5-second delay recorded), while a
run that returned certifies its task polled terminal. -/
theorem wait_for_tasks_no_timeout_witness :
    ((wait_for_tasks (fun _ _ => "running") 3 ["t1"] 5).1 = none ∧
      (wait_for_tasks (fun _ _ => "running") 3 ["t1"] 5).2.1 =
        List.replicate 3 (5 : ℚ)) ∧
    (∃ r, r < 1 ∧ isTerminal ((fun _ _ => "finished") r "t1") = true) :=
  ⟨wait_for_tasks_no_timeout.1 (fun _ _ => "running") 5 ["t1"] "t1" (by decide)
      (fun r => by show ¬ isTerminal "running" = true; decide) 3,
   wait_for_tasks_no_timeout.2 (fun _ _ => "finished") 5 ["t1"] 1
      (dict_insert (fun _ => none) "t1" "finished") rfl "t1" (by decide)⟩

/-- C5: the identity string of a `ModuleDefaults` is the name followed
by one bracketed segment per profile key in sorted key order, each
segment joining that key's profile names in sorted order; on the ruby
example it yields "ruby:[1.0:common]:[2.5:common,unique]"; and the
result does not depend on the iteration order of the profiles mapping
(stated as invariance under permutation of the underlying
association list, whose keys — dict keys — are distinct). -/
theorem name_profiles_sorted :
    (ModuleDefaults.name_profiles
        ⟨"ruby", "2.5", [("2.5", ["unique", "common"]), ("1.0", ["common"])], "repo"⟩ =
      "ruby:[1.0:common]:[2.5:common,unique]") ∧
    (∀ md : ModuleDefaults, md.name_profiles =
      md.name ++ String.join
        ((List.insertionSort PyLe (md.profiles.map Prod.fst)).map (fun key =>
          ":[" ++ key ++ ":" ++
            String.intercalate ","
              (List.insertionSort PyLe ((md.profiles.lookup key).getD [])) ++
            "]"))) ∧
    (∀ md1 md2 : ModuleDefaults, md1.name = md2.name →
      md1.profiles.Perm md2.profiles → (md1.profiles.map Prod.fst).Nodup →
      md1.name_profiles = md2.name_profiles) := by
  refine ⟨by decide, fun md => ?_, fun md1 md2 hname hperm hnd => ?_⟩
  · exact foldl_append_eq_join _ _ _
  · unfold ModuleDefaults.name_profiles
    have hkeys : List.insertionSort PyLe (md1.profiles.map Prod.fst) =
        List.insertionSort PyLe (md2.profiles.map Prod.fst) := by
      refine List.eq_of_perm_of_sorted ?_
        (List.sorted_insertionSort PyLe _) (List.sorted_insertionSort PyLe _)
      exact (List.perm_insertionSort PyLe _).trans
        ((hperm.map Prod.fst).trans (List.perm_insertionSort PyLe _).symm)
    have hlk : ∀ k, md1.profiles.lookup k = md2.profiles.lookup k :=
      lookup_eq_of_perm hperm hnd
    rw [hname, hkeys]
    refine List.foldl_ext _ _ _ (fun acc key _ => ?_)
    rw [hlk key]

/-- Witness for C5: the ruby example evaluated through the theorem's
permutation-invariance part with the two profile orderings. -/
theorem name_profiles_sorted_witness :
    ModuleDefaults.name_profiles
        ⟨"ruby", "2.5", [("2.5", ["unique", "common"]), ("1.0", ["common"])], "repo"⟩ =
      ModuleDefaults.name_profiles
        ⟨"ruby", "2.5", [("1.0", ["common"]), ("2.5", ["unique", "common"])], "repo"⟩ :=
  name_profiles_sorted.2.2
    ⟨"ruby", "2.5", [("2.5", ["unique", "common"]), ("1.0", ["common"])], "repo"⟩
    ⟨"ruby", "2.5", [("1.0", ["common"]), ("2.5", ["unique", "common"])], "repo"⟩
    rfl (List.Perm.swap ("1.0", ["common"]) ("2.5", ["unique", "common"]) [])
    (by decide)

/-- C6: for every list of modules the module query has exactly one entry
per module, in input order, each a `$and` conjunction of exactly the
five exact-match fields name, context, version, stream, arch, and
associate/unassociate place these entries as the `$or` disjunction of
their filter (`AssociateData`/`UnassociateData` fields in constructor
order: url, source repo, criteria with type_ids and the `$or` list). -/
theorem modules_query_shape (src_repo dest_repo : Repo) (ms : List Module)
    (type_ids : List String) (h : "modulemd" ∈ type_ids) :
    modules_query (ms.map PulpUnit.mod) =
      .ok (ms.map (fun m => QueryClause.and
        [("name", .str m.name), ("context", .str m.context), ("version", .num m.version),
         ("stream", .str m.stream), ("arch", .str m.arch)])) ∧
    associate_units_data src_repo dest_repo (ms.map PulpUnit.mod) type_ids =
      .ok ⟨"repositories/" ++ dest_repo.id ++ "/actions/associate/", src_repo.id,
        ⟨type_ids, ms.map (fun m => QueryClause.and
          [("name", .str m.name), ("context", .str m.context), ("version", .num m.version),
           ("stream", .str m.stream), ("arch", .str m.arch)])⟩⟩ ∧
    unassociate_units_data dest_repo (ms.map PulpUnit.mod) type_ids =
      .ok ⟨"repositories/" ++ dest_repo.id ++ "/actions/unassociate/",
        ⟨type_ids, ms.map (fun m => QueryClause.and
          [("name", .str m.name), ("context", .str m.context), ("version", .num m.version),
           ("stream", .str m.stream), ("arch", .str m.arch)])⟩⟩ := by
  have hq : modules_query (ms.map PulpUnit.mod) =
      .ok (ms.map (fun m => QueryClause.and
        [("name", .str m.name), ("context", .str m.context), ("version", .num m.version),
         ("stream", .str m.stream), ("arch", .str m.arch)])) := by
    induction ms with
    | nil => rfl
    | cons m t ih =>
      simp only [List.map_cons, modules_query, List.mapM_cons] at ih ⊢
      rw [ih]; rfl
  have hd : get_query_list type_ids (ms.map PulpUnit.mod) =
      modules_query (ms.map PulpUnit.mod) := by
    unfold get_query_list; rw [if_pos h]
  refine ⟨hq, ?_, ?_⟩
  · unfold associate_units_data; rw [hd, hq]; rfl
  · unfold unassociate_units_data; rw [hd, hq]; rfl

/-- Witness for C6 at a concrete one-module list. -/
theorem modules_query_shape_witness :
    modules_query [PulpUnit.mod ⟨"ruby", "2.5", 20190101, "abcd", "x86_64", [], [], "r"⟩] =
      .ok [.and [("name", .str "ruby"), ("context", .str "abcd"),
                 ("version", .num 20190101), ("stream", .str "2.5"),
                 ("arch", .str "x86_64")]] :=
  (modules_query_shape ⟨"src"⟩ ⟨"dst"⟩
    [⟨"ruby", "2.5", 20190101, "abcd", "x86_64", [], [], "r"⟩]
    ["modulemd"] (by decide)).1

/-- C7: the retrying transport retries exactly on statuses 500, 502,
503, 504, for exactly the methods HEAD, TRACE, GET, POST, PUT, OPTIONS,
DELETE; total attempts default to 10, the backoff factor to 1, the
request timeout to 120, and each is overridable through its environment
variable. -/
theorem retry_adapter_config :
    (∀ env : String → Option String,
      env "UBIPOP_HTTP_TOTAL_RETRIES" = none →
      env "UBIPOP_HTTP_RETRY_BACKOFF" = none →
      env "UBIPOP_HTTP_TIMEOUT" = none →
      default_adapter env = some
        { total := 10, status_forcelist := [500, 502, 503, 504],
          method_whitelist := ["HEAD", "TRACE", "GET", "POST", "PUT", "OPTIONS", "DELETE"],
          backoff_factor := 1 } ∧
      HTTP_TIMEOUT env = some 120) ∧
    (∀ (env : String → Option String) (s : String) (n : Int),
      env "UBIPOP_HTTP_TOTAL_RETRIES" = some s → pyInt? s = some n →
      HTTP_TOTAL_RETRIES env = some n) ∧
    (∀ (env : String → Option String) (s : String) (q : ℚ),
      env "UBIPOP_HTTP_RETRY_BACKOFF" = some s → pyFloat? s = some q →
      HTTP_RETRY_BACKOFF env = some q) ∧
    (∀ (env : String → Option String) (s : String) (n : Int),
      env "UBIPOP_HTTP_TIMEOUT" = some s → pyInt? s = some n →
      HTTP_TIMEOUT env = some n) ∧
    (∀ (t : Int) (b : ℚ),
      (pulpRetryAdapter t b).status_forcelist = [500, 502, 503, 504] ∧
      (pulpRetryAdapter t b).method_whitelist =
        ["HEAD", "TRACE", "GET", "POST", "PUT", "OPTIONS", "DELETE"]) := by
  refine ⟨fun env h1 h2 h3 => ?_, fun env s n h hp => ?_, fun env s q h hp => ?_,
          fun env s n h hp => ?_, fun t b => ⟨rfl, rfl⟩⟩
  · constructor
    · simp [default_adapter, HTTP_TOTAL_RETRIES, HTTP_RETRY_BACKOFF, h1, h2,
        pulpRetryAdapter]
    · simp [HTTP_TIMEOUT, h3]
  · simp [HTTP_TOTAL_RETRIES, h, hp]
  · simp [HTTP_RETRY_BACKOFF, h, hp]
  · simp [HTTP_TIMEOUT, h, hp]

/-- Witness for C7: an empty environment yields the default
configuration, and concrete overrides take effect. -/
theorem retry_adapter_config_witness :
    (default_adapter (fun _ => none) = some
      { total := 10, status_forcelist := [500, 502, 503, 504],
        method_whitelist := ["HEAD", "TRACE", "GET", "POST", "PUT", "OPTIONS", "DELETE"],
        backoff_factor := 1 } ∧
     HTTP_TIMEOUT (fun _ => none) = some 120) ∧
    HTTP_TOTAL_RETRIES (fun k => if k = "UBIPOP_HTTP_TOTAL_RETRIES" then some "7" else none) =
      some 7 ∧
    HTTP_RETRY_BACKOFF (fun k => if k = "UBIPOP_HTTP_RETRY_BACKOFF" then some "2" else none) =
      some 2 ∧
    HTTP_TIMEOUT (fun k => if k = "UBIPOP_HTTP_TIMEOUT" then some "30" else none) =
      some 30 :=
  ⟨retry_adapter_config.1 (fun _ => none) rfl rfl rfl,
   retry_adapter_config.2.1 _ "7" 7 (by decide) (by decide),
   retry_adapter_config.2.2.1 _ "2" 2 (by decide) (by decide),
   retry_adapter_config.2.2.2.1 _ "30" 30 (by decide) (by decide)⟩

/-- C8: `do_request` with a request type other than "post" and "get"
issues no HTTP request and returns the nil result; "post" sends the
JSON body, "get" sends none. -/
theorem do_request_verbs :
    (∀ (client : PulpClient) (timeout : Int) (req_type url : String) (data : Option Json),
      req_type ≠ "post" → req_type ≠ "get" →
      do_request client timeout req_type url data = none) ∧
    (∀ (client : PulpClient) (timeout : Int) (url : String) (data : Option Json),
      do_request client timeout "post" url data =
        some { method := .post, url := urljoin (pulp_base_url client.hostname) url,
               body := data, verify := !client.insecure, timeout := timeout }) ∧
    (∀ (client : PulpClient) (timeout : Int) (url : String) (data : Option Json),
      do_request client timeout "get" url data =
        some { method := .get, url := urljoin (pulp_base_url client.hostname) url,
               body := none, verify := !client.insecure, timeout := timeout }) := by
  refine ⟨fun client timeout req_type url data h1 h2 => ?_,
          fun client timeout url data => rfl, fun client timeout url data => ?_⟩
  · simp [do_request, h1, h2]
  · simp [do_request]

/-- Witness for C8: a "put" request yields no request at all. -/
theorem do_request_verbs_witness :
    do_request ⟨"host", ["u", "p"], false⟩ 120 "put" "tasks/t1/" none = none :=
  do_request_verbs.1 ⟨"host", ["u", "p"], false⟩ 120 "put" "tasks/t1/" none
    (by decide) (by decide)

/-- C9 counterexample: `associate_units` does NOT raise on the non-2xx
status 301 — `raise_for_status` raises only on 4xx/5xx — so the claim's
contrast clause "associate raises on non-2xx before parsing" fails at a
3xx response, which is parsed normally. -/
theorem associate_no_raise_on_301 :
    associate_units_handle ⟨301, .obj [("spawned_tasks",
        .arr [.obj [("task_id", .str "t1")]])]⟩ = .ok [.str "t1"] := rfl

/-- C9 amended: `unassociate_units` never checks the HTTP status of the
response — for every response, whatever its status, it parses the JSON
body and returns the spawned task ids, or fails on the body's shape —
unlike `associate_units` and the search operations, which raise on
4xx/5xx statuses before parsing (statuses outside 400-599, including
3xx, are not raised on). -/
theorem unassociate_ignores_status :
    (∀ (s1 s2 : Nat) (body : Json),
      unassociate_units_handle ⟨s1, body⟩ = unassociate_units_handle ⟨s2, body⟩) ∧
    (∀ (r : HttpResponse) (ids : List Json), spawned_task_ids r.body = some ids →
      unassociate_units_handle r = .ok ids) ∧
    (∀ r : HttpResponse, spawned_task_ids r.body = none →
      unassociate_units_handle r = .error .malformedBody) ∧
    (∀ r : HttpResponse, 400 ≤ r.status → r.status < 600 →
      associate_units_handle r = .error (.httpError r.status)) ∧
    (∀ (server : SearchCriteria → HttpResponse) (repo : Repo)
        (name stream : Option String),
      400 ≤ (server (search_modules_criteria name stream)).status →
      (server (search_modules_criteria name stream)).status < 600 →
      (search_modules server repo name stream).1 =
        .error (.httpError (server (search_modules_criteria name stream)).status)) := by
  have hrs : ∀ r : HttpResponse, 400 ≤ r.status → r.status < 600 →
      raise_for_status r = .error (.httpError r.status) := by
    intro r h1 h2
    unfold raise_for_status
    rw [if_pos ⟨h1, h2⟩]
  refine ⟨fun s1 s2 body => rfl, fun r ids h => ?_, fun r h => ?_,
          fun r h1 h2 => ?_, fun server repo name stream h1 h2 => ?_⟩
  · simp [unassociate_units_handle, h]
  · simp [unassociate_units_handle, h]
  · unfold associate_units_handle
    rw [hrs r h1 h2]
  · simp only [search_modules]
    rw [hrs _ h1 h2]

/-- Witness for C9: the same body parses identically under statuses 301
and 200 for unassociate, while associate raises on a 404. -/
theorem unassociate_ignores_status_witness :
    unassociate_units_handle ⟨301, .obj [("spawned_tasks",
        .arr [.obj [("task_id", .str "t1")]])]⟩ =
      unassociate_units_handle ⟨200, .obj [("spawned_tasks",
        .arr [.obj [("task_id", .str "t1")]])]⟩ ∧
    associate_units_handle ⟨404, .null⟩ = .error (.httpError 404) :=
  ⟨unassociate_ignores_status.1 301 200 _,
   unassociate_ignores_status.2.2.2.1 ⟨404, .null⟩ (by decide) (by decide)⟩

/-- C10: every lazily created per-worker session receives the client's
authentication by the length rule of `_make_session`: a one-element auth
tuple is attached as the client certificate, any other tuple is attached
whole as username/password credentials; `_make_session` is the only way
the client creates a session, and the lazy creation in `do_request`
calls exactly it. -/
theorem make_session_auth_rule :
    (∀ (client : PulpClient) (a : String), client.auth = [a] →
      make_session client = { cert := some a, auth := none }) ∧
    (∀ client : PulpClient, client.auth.length ≠ 1 →
      make_session client = { cert := none, auth := some client.auth }) ∧
    (∀ client : PulpClient, ensure_session client none = make_session client) ∧
    (∀ (client : PulpClient) (s : Session), ensure_session client (some s) = s) := by
  refine ⟨fun client a h => ?_, fun client h => ?_, fun client => rfl, fun client s => rfl⟩
  · simp [make_session, h]
  · simp [make_session, h]

/-- Witness for C10 at concrete auth tuples of length one and two. -/
theorem make_session_auth_rule_witness :
    make_session ⟨"host", ["certpath"], false⟩ = { cert := some "certpath", auth := none } ∧
    make_session ⟨"host", ["user", "pass"], false⟩ =
      { cert := none, auth := some ["user", "pass"] } :=
  ⟨make_session_auth_rule.1 _ "certpath" rfl,
   make_session_auth_rule.2.1 ⟨"host", ["user", "pass"], false⟩ (by decide)⟩

end Ubipop
